import Mathlib

/-
Shallow embedding of `src/backend/plugins/skier_aitagging_plugin/tag_config.py`:
the tag-settings data model, the CSV row parser, the override-merge algorithm,
the configuration loader and the cached configuration store.

Modelling conventions:
* A CSV cell (a value of Python's `csv.DictReader` row dict) is `Option String`:
  `none` is Python `None` (missing cell, `restval`), `some s` is the cell text.
  Rows with a `None` key are skipped by the source (`if key is None: continue`)
  before any other processing, so they are simply absent from the model.
* Python `str.strip()`, `str.lower()` and `str.replace(c, "")` are modelled
  by `pyStrip`, `pyLower` and `removeChar` below, operating on the character
  list of the string (ASCII case folding, ASCII whitespace); the differences
  from Python (exotic Unicode whitespace/case) are irrelevant to the
  properties proved here.
* Python floats are modelled by `Rat`; which strings `float()` accepts is
  irrelevant to every claim (only the `Option` structure of parse results is
  used), so `pyFloatOfString` covers plain decimal literals.
* In-place mutation of a `TagSettings` dataclass becomes a function returning
  the updated value; `dataclasses.replace` (a fresh copy) is a record update.
-/

namespace TagConfig

/-- A CSV cell value as seen by the row parser: Python `None` or a string. -/
abbrev Cell := Option String

/-- One raw `csv.DictReader` row: header text paired with the cell value. -/
abbrev RawRow := List (String × Cell)

/-- Python `dict.get`: the value stored at `k`, if any.  Keys in the dicts we
build are unique, so first-match lookup coincides with dict lookup. -/
def dget {α : Type} : List (String × α) → String → Option α
  | [], _ => none
  | (k', v) :: rest, k => if k' = k then some v else dget rest k

/-- Python `d[k] = v`: replace the value at an existing key in place, else
append a new entry (Python dicts keep the original insertion position). -/
def dset {α : Type} : List (String × α) → String → α → List (String × α)
  | [], k, v => [(k, v)]
  | (k', v') :: rest, k, v =>
    if k' = k then (k', v) :: rest else (k', v') :: dset rest k v

/-- Python truthiness-based `or` on two optional strings (`a or b`):
`None` and `""` are falsy. -/
def pyOrOpt (a b : Option String) : Option String :=
  match a with
  | none => b
  | some s => if s = "" then b else some s

/-- ASCII whitespace, as stripped by Python's `str.strip()`. -/
def isPySpace (c : Char) : Bool :=
  c = ' ' || c = '\t' || c = '\n' || c = '\r' || c = '\x0b' || c = '\x0c'

/-- Python `str.strip()`: drop leading and trailing whitespace. -/
def pyStrip (s : String) : String :=
  ⟨((s.data.dropWhile isPySpace).reverse.dropWhile isPySpace).reverse⟩

/-- Python `str.lower()` (ASCII case folding). -/
def pyLower (s : String) : String :=
  ⟨s.data.map Char.toLower⟩

/-- Python `str.replace(c, "")` for a single character `c`. -/
def removeChar (c : Char) (s : String) : String :=
  ⟨s.data.filter (fun a => a != c)⟩

/-- `_normalize_key`: strip, lower-case, then remove spaces, hyphens and
underscores. -/
def normalize_key (key : String) : String :=
  removeChar '_' (removeChar '-' (removeChar ' ' (pyLower (pyStrip key))))

/-- `_normalize_string`: `None` for non-string input, else strip;
empty-after-strip becomes `None`. -/
def normalize_string (value : Cell) : Option String :=
  match value with
  | none => none
  | some s => let result := pyStrip s
              if result = "" then none else some result

/-- `_parse_bool`: tolerant boolean parse; unrecognised text is `None`. -/
def parse_bool (value : Cell) : Option Bool :=
  match value with
  | none => none
  | some s =>
    let text := pyLower (pyStrip s)
    if text = "1" ∨ text = "true" ∨ text = "yes" ∨ text = "y" then some true
    else if text = "0" ∨ text = "false" ∨ text = "no" ∨ text = "n" then some false
    else none

/-- Digit-run parse used by the `float()` model: all characters must be
decimal digits and the run must be non-empty. -/
def digitsToNat? (l : List Char) : Option Nat :=
  if l.isEmpty || !(l.all Char.isDigit) then none
  else some (l.foldl (fun n c => n * 10 + (c.toNat - 48)) 0)

/-- Model of Python's builtin `float()` on non-empty stripped text, restricted
to plain decimal literals (optional sign, digits, optional fractional part).
Python's `float` accepts a superset (exponents, `inf`, ...); which strings
parse is irrelevant to every claim proved below — only the `Option` structure
of the result is ever used. -/
def pyFloatOfString (text : String) : Option Rat :=
  let signed : Bool × List Char :=
    match text.data with
    | '-' :: rest => (true, rest)
    | '+' :: rest => (false, rest)
    | _ => (false, text.data)
  match (signed.2).splitOn '.' with
  | [intPart] =>
    (digitsToNat? intPart).map (fun n => if signed.1 then -(n : Rat) else (n : Rat))
  | [intPart, fracPart] =>
    if intPart.isEmpty && fracPart.isEmpty then none
    else
      let ni := if intPart.isEmpty then some 0 else digitsToNat? intPart
      let nf := if fracPart.isEmpty then some 0 else digitsToNat? fracPart
      match ni, nf with
      | some a, some b =>
        let v : Rat := (a : Rat) + (b : Rat) / ((10 : Rat) ^ fracPart.length)
        some (if signed.1 then -v else v)
      | _, _ => none
  | _ => none

/-- `_parse_float`: `None` passes through, text is stripped, empty text is
`None`, unparsable text is logged and becomes `None`. -/
def parse_float (value : Cell) : Option Rat :=
  match value with
  | none => none
  | some s =>
    let text := pyStrip s
    if text = "" then none else pyFloatOfString text

/-- The source's 5-tuple of optional floats
`Tuple[float | None, float | None, float | None, float | None, float | None]`. -/
structure MergeParams where
  p1 : Option Rat
  p2 : Option Rat
  p3 : Option Rat
  p4 : Option Rat
  p5 : Option Rat
deriving DecidableEq

/-- Position `i` (0-based, as in the source's `enumerate`) of a 5-tuple. -/
def MergeParams.get (mp : MergeParams) : Fin 5 → Option Rat
  | ⟨0, _⟩ => mp.p1
  | ⟨1, _⟩ => mp.p2
  | ⟨2, _⟩ => mp.p3
  | ⟨3, _⟩ => mp.p4
  | ⟨4, _⟩ => mp.p5

/-- The all-`None` tuple `(None, None, None, None, None)`. -/
def MergeParams.empty : MergeParams := ⟨none, none, none, none, none⟩

/-- `TagSettings` dataclass: the resolved configuration for one tag. -/
structure TagSettings where
  tag_name : String
  stash_name : Option String
  markers_enabled : Bool
  scene_tag_enabled : Bool
  image_enabled : Bool
  required_scene_tag_duration : Option Rat
  min_marker_duration : Option Rat
  max_gap : Option Rat
  merge_strategy : String
  merge_params : MergeParams
deriving DecidableEq

/-- `TagSettingsOverride` dataclass: a sparse patch, every field optional. -/
structure TagSettingsOverride where
  stash_name : Option String := none
  markers_enabled : Option Bool := none
  scene_tag_enabled : Option Bool := none
  image_enabled : Option Bool := none
  required_scene_tag_duration : Option Rat := none
  min_marker_duration : Option Rat := none
  max_gap : Option Rat := none
  merge_strategy : Option String := none
  merge_params : MergeParams := MergeParams.empty
deriving DecidableEq

/-- `_base_settings()`: the built-in defaults. -/
def base_settings : TagSettings :=
  { tag_name := "__global__"
    stash_name := none
    markers_enabled := true
    scene_tag_enabled := true
    image_enabled := false
    required_scene_tag_duration := none
    min_marker_duration := none
    max_gap := none
    merge_strategy := "default"
    merge_params := MergeParams.empty }

/-- The positional loop of `_apply_override` over `override.merge_params`:
`merged[idx] = value` for each non-`None` position.  (The guarding
`if override.merge_params:` in the source is Python tuple truthiness, which is
always true for the 5-tuple the type prescribes.) -/
def mergeParamsMerge (base ov : MergeParams) : MergeParams :=
  { p1 := match ov.p1 with | none => base.p1 | some v => some v
    p2 := match ov.p2 with | none => base.p2 | some v => some v
    p3 := match ov.p3 with | none => base.p3 | some v => some v
    p4 := match ov.p4 with | none => base.p4 | some v => some v
    p5 := match ov.p5 with | none => base.p5 | some v => some v }

/-- `_apply_override(base, override)`: each `if override.f is not None:` block
assigns one field of `base`; the sequence of in-place single-field mutations is
the corresponding chain of record updates.  `base.stash_name = override.stash_name or None`
turns an empty override string into `None`. -/
def apply_override (base : TagSettings) (ov : TagSettingsOverride) : TagSettings :=
  let b1 := match ov.stash_name with
    | none => base
    | some s => { base with stash_name := if s = "" then none else some s }
  let b2 := match ov.markers_enabled with
    | none => b1
    | some v => { b1 with markers_enabled := v }
  let b3 := match ov.scene_tag_enabled with
    | none => b2
    | some v => { b2 with scene_tag_enabled := v }
  let b4 := match ov.image_enabled with
    | none => b3
    | some v => { b3 with image_enabled := v }
  let b5 := match ov.required_scene_tag_duration with
    | none => b4
    | some v => { b4 with required_scene_tag_duration := some v }
  let b6 := match ov.min_marker_duration with
    | none => b5
    | some v => { b5 with min_marker_duration := some v }
  let b7 := match ov.max_gap with
    | none => b6
    | some v => { b6 with max_gap := some v }
  let b8 := match ov.merge_strategy with
    | none => b7
    | some v => { b7 with merge_strategy := v }
  { b8 with merge_params := mergeParamsMerge b8.merge_params ov.merge_params }

/-- The normalisation loop of `_parse_row`: build the `normalized` dict,
canonicalising each header key and stripping each string cell. -/
def normalizeRow (raw : RawRow) : RawRow :=
  raw.foldl (fun acc kv => dset acc (normalize_key kv.1) (kv.2.map pyStrip)) []

/-- Blankness of one cell, as tested by `_parse_row`'s
`any(str(value).strip() for value in normalized.values() if value is not None)`:
a `None` cell contributes nothing, a string cell is blank when it strips to
the empty string. -/
def cellBlank (c : Cell) : Bool :=
  match c with
  | none => true
  | some s => pyStrip s == ""

/-- The blank-row test of `_parse_row`: every cell of the normalized row is
blank. -/
def rowIsBlank (normalized : RawRow) : Bool :=
  normalized.all (fun kv => cellBlank kv.2)

/-- The tag-identifying cell of `_parse_row`:
`tag_value = normalized.get("tagname") or normalized.get("tag")`, then
`tag_value.strip() if isinstance(tag_value, str) else ""`. -/
def tagCellValue (normalized : RawRow) : String :=
  match pyOrOpt (Option.join (dget normalized "tagname"))
      (Option.join (dget normalized "tag")) with
  | some s => pyStrip s
  | none => ""

/-- The override built by `_parse_row` from the recognized canonical headers. -/
def rowOverride (normalized : RawRow) : TagSettingsOverride :=
  { stash_name := normalize_string (Option.join (dget normalized "stashname"))
    markers_enabled := parse_bool (Option.join (dget normalized "markersenabled"))
    scene_tag_enabled := parse_bool (Option.join (dget normalized "scenetagenabled"))
    image_enabled := parse_bool (Option.join (dget normalized "imageenabled"))
    required_scene_tag_duration :=
      parse_float (Option.join (dget normalized "requiredscenetagduration"))
    min_marker_duration := parse_float (Option.join (dget normalized "minmarkerduration"))
    max_gap := parse_float (Option.join (dget normalized "maxgap"))
    merge_strategy := normalize_string (Option.join (dget normalized "mergestrategy"))
    merge_params :=
      { p1 := parse_float (Option.join (dget normalized "markermergeparam1"))
        p2 := parse_float (Option.join (dget normalized "markermergeparam2"))
        p3 := parse_float (Option.join (dget normalized "markermergeparam3"))
        p4 := parse_float (Option.join (dget normalized "markermergeparam4"))
        p5 := parse_float (Option.join (dget normalized "markermergeparam5")) } }

/-- The default-row marker test of `_parse_row`:
`tag_value in {"", "*", "default", "__default__"}` (case-sensitive). -/
def isDefaultMarker (t : String) : Bool :=
  t == "" || t == "*" || t == "default" || t == "__default__"

/-- `_parse_row(row_number, raw_row)`: returns `(tag_key, override)`; both
`none` means "skip this row".  The `row_number` argument is used only for
logging and is dropped. -/
def parse_row (raw : RawRow) : Option String × Option TagSettingsOverride :=
  let normalized := normalizeRow raw
  if rowIsBlank normalized then (none, none)
  else
    let tagValue := tagCellValue normalized
    let ov := rowOverride normalized
    if isDefaultMarker tagValue then (none, some ov)
    else (some (pyLower tagValue), some ov)

/-- `TagConfiguration.__init__`: an immutable snapshot.  The overrides dict is
a key-unique association list (see `dget`/`dset`); `source_path` is the path
string (never inspected by the logic modelled here). -/
structure TagConfiguration where
  source_path : String
  global_settings : TagSettings
  overrides : List (String × TagSettingsOverride)
  tag_suffix : String
deriving DecidableEq

/-- Python falsiness of an optional string field (`not value`):
`None` and `""` are falsy. -/
def pyFalsyOptStr (value : Option String) : Bool :=
  match value with
  | none => true
  | some s => s == ""

/-- Steps 1-3 of `TagConfiguration.resolve`: strip the input, clone the global
baseline via `dataclasses.replace` with the effective name, and apply the
per-tag override if one exists (`if override:` is dataclass truthiness, i.e.
always true for a present override). -/
def effectiveAfterOverride (cfg : TagConfiguration) (tag_name : String) : TagSettings :=
  let normalized := pyStrip tag_name
  let effective := { cfg.global_settings with
    tag_name := if normalized = "" then cfg.global_settings.tag_name else normalized }
  match (if normalized = "" then none else dget cfg.overrides (pyLower normalized)) with
  | some ov => apply_override effective ov
  | none => effective

/-- Step 4 of `resolve`: `if not effective.stash_name:` derive it as
`normalized + tag_suffix if normalized else normalized`. -/
def fillStashName (cfg : TagConfiguration) (normalized : String) (e : TagSettings) : TagSettings :=
  if pyFalsyOptStr e.stash_name then
    { e with stash_name := some (if normalized = "" then normalized else normalized ++ cfg.tag_suffix) }
  else e

/-- Step 5 of `resolve`: `if not effective.merge_strategy:` fall back to
`"default"`. -/
def fillMergeStrategy (e : TagSettings) : TagSettings :=
  if e.merge_strategy = "" then { e with merge_strategy := "default" } else e

/-- `TagConfiguration.resolve(tag_name)`.  The second component is the
snapshot as it stands after the call: `replace` clones the baseline, and all
mutations hit the clone, so the snapshot passes through untouched. -/
def resolve (cfg : TagConfiguration) (tag_name : String) : TagSettings × TagConfiguration :=
  (fillMergeStrategy (fillStashName cfg (pyStrip tag_name) (effectiveAfterOverride cfg tag_name)),
   cfg)

/-- The mutable state accumulated by the row loop of `TagConfiguration.load`. -/
structure LoadState where
  global_settings : TagSettings
  overrides : List (String × TagSettingsOverride)
deriving DecidableEq

/-- One iteration of the row loop of `load`: skip, fold onto the global
baseline, or store/overwrite the per-tag override. -/
def stepRow (st : LoadState) (raw : RawRow) : LoadState :=
  match parse_row raw with
  | (_, none) => st
  | (none, some ov) => { st with global_settings := apply_override st.global_settings ov }
  | (some k, some ov) => { st with overrides := dset st.overrides k ov }

/-- The whole row loop of `load`, starting from `_base_settings()` and an
empty overrides dict. -/
def processRows (rows : List RawRow) : LoadState :=
  rows.foldl stepRow { global_settings := base_settings, overrides := [] }

/-- The `try:`-guarded parsing phase of `load`.  `rows` are the rows the CSV
reader yields before the file ends or an exception is raised mid-iteration;
`readRaises` records whether such an exception occurred.  The source's
`except Exception:` handler only logs ("using defaults") — it does not reset
`global_settings` or `overrides` — so the state accumulated so far is returned
either way (this is exactly what claim C1 is about). -/
def loadParsePhase (rows : List RawRow) (_readRaises : Bool) : LoadState :=
  processRows rows

/-- `TagConfiguration.load`, abstracted over the environment: the rows the
file yields (`[]` for a missing/empty file), whether reading raised
mid-iteration, the tag suffix obtained from `_get_tag_suffix()`, and the
computed config path. -/
def loadModel (rows : List RawRow) (readRaises : Bool)
    (tag_suffix source_path : String) : TagConfiguration :=
  let st := loadParsePhase rows readRaises
  { source_path := source_path
    global_settings := st.global_settings
    overrides := st.overrides
    tag_suffix := tag_suffix }

/-- `get_tag_configuration(reload=...)` as a sequential state transformer on
the module-level cache `_CONFIG_CACHE`.  `loadResult` is what
`TagConfiguration.load()` would return at this call.  Returns the
configuration handed to the caller and the cache afterwards.  (The lock and
the double-checked `None` test collapse in the sequential model.) -/
def get_tag_configuration (loadResult : TagConfiguration) (reload : Bool)
    (cache : Option TagConfiguration) : TagConfiguration × Option TagConfiguration :=
  if reload then (loadResult, some loadResult)
  else
    match cache with
    | some cfg => (cfg, some cfg)
    | none => (loadResult, some loadResult)

/-- A run of consecutive `get_tag_configuration()` calls without `reload`;
`loads` holds the value `load()` would produce at each call (unused whenever
the cache is hot).  Returns the list of returned snapshots and the final
cache. -/
def runPlain : Option TagConfiguration → List TagConfiguration →
    List TagConfiguration × Option TagConfiguration
  | cache, [] => ([], cache)
  | cache, l :: ls =>
    let step := get_tag_configuration l false cache
    let rest := runPlain step.2 ls
    (step.1 :: rest.1, rest.2)

/-- The per-tag fragments a row list produces, in order: `(tag_key, override)`
for rows that target a specific tag. -/
def rowFragments (rows : List RawRow) : List (String × TagSettingsOverride) :=
  rows.filterMap (fun r => match parse_row r with
    | (some k, some ov) => some (k, ov)
    | _ => none)

/-- The default-row fragments a row list produces, in order: overrides of rows
that target the global baseline. -/
def defaultFragments (rows : List RawRow) : List TagSettingsOverride :=
  rows.filterMap (fun r => match parse_row r with
    | (none, some ov) => some ov
    | _ => none)

/-- The value paired with the LAST occurrence of key `k` in an association
list, if any. -/
def lastEntry {α : Type} : List (String × α) → String → Option α
  | [], _ => none
  | (k', v) :: rest, k =>
    match lastEntry rest k with
    | some w => some w
    | none => if k' = k then some v else none

/-- First-some choice on options. -/
def oor {α : Type} (a b : Option α) : Option α :=
  match a with
  | some v => some v
  | none => b

/-- An optional string that is present and non-empty. -/
def optNonEmpty (value : Option String) : Bool :=
  match value with
  | none => false
  | some s => !(s == "")

/-- The snapshot `load()` produces when the config file is missing and no
template is available: built-in defaults, no overrides, default suffix. -/
def cfg0 : TagConfiguration := loadModel [] false "_AI" "tag_settings.csv"

/-- Rows yielded before a mid-file read failure: a default row that disables
markers, then a per-tag row for `Cat`. -/
def c1Rows : List RawRow :=
  [[("TagName", some "*"), ("MarkersEnabled", some "false")],
   [("TagName", some "Cat"), ("ImageEnabled", some "true")]]

/-- A row whose tag cell is the word `Default` (not the case-sensitive
marker `default`). -/
def c6Row : RawRow := [("Tag Name", some " Default ")]

/-- A row whose cells are all empty, whitespace, or absent. -/
def c8Row : RawRow :=
  [("TagName", some "   "), ("StashName", none), ("MergeStrategy", some "")]

/-! ## Helper lemmas -/

/-- The sequential single-field mutations of `_apply_override` amount to a
simultaneous field-wise update. -/
theorem apply_override_eq (base : TagSettings) (ov : TagSettingsOverride) :
    apply_override base ov =
      { tag_name := base.tag_name
        stash_name :=
          match ov.stash_name with
          | none => base.stash_name
          | some s => if s = "" then none else some s
        markers_enabled :=
          match ov.markers_enabled with
          | none => base.markers_enabled
          | some v => v
        scene_tag_enabled :=
          match ov.scene_tag_enabled with
          | none => base.scene_tag_enabled
          | some v => v
        image_enabled :=
          match ov.image_enabled with
          | none => base.image_enabled
          | some v => v
        required_scene_tag_duration :=
          match ov.required_scene_tag_duration with
          | none => base.required_scene_tag_duration
          | some v => some v
        min_marker_duration :=
          match ov.min_marker_duration with
          | none => base.min_marker_duration
          | some v => some v
        max_gap :=
          match ov.max_gap with
          | none => base.max_gap
          | some v => some v
        merge_strategy :=
          match ov.merge_strategy with
          | none => base.merge_strategy
          | some v => v
        merge_params := mergeParamsMerge base.merge_params ov.merge_params } := by
  rcases ov with ⟨os, om, osc, oi, oa, ob, oc, oms, omp⟩
  cases os <;> cases om <;> cases osc <;> cases oi <;> cases oa <;> cases ob <;>
    cases oc <;> cases oms <;> rfl

theorem dget_dset {α : Type} (d : List (String × α)) (k q : String) (v : α) :
    dget (dset d k v) q = if k = q then some v else dget d q := by
  induction d with
  | nil => simp [dget, dset]
  | cons hd tl ih =>
    obtain ⟨a, b⟩ := hd
    by_cases hak : a = k <;> by_cases hkq : k = q <;>
      simp_all [dget, dset]

theorem string_append_ne_empty (s r : String) (h : s ≠ "") : s ++ r ≠ "" := by
  intro hc
  apply h
  obtain ⟨sd⟩ := s
  obtain ⟨rd⟩ := r
  have hd : sd ++ rd = ([] : List Char) := by
    have hdata := congrArg String.data hc
    simpa using hdata
  have hs : sd = [] := (List.append_eq_nil.mp hd).1
  subst hs
  rfl

theorem fillStashName_tag_name (cfg : TagConfiguration) (n : String) (e : TagSettings) :
    (fillStashName cfg n e).tag_name = e.tag_name := by
  unfold fillStashName; split <;> rfl

theorem fillMergeStrategy_tag_name (e : TagSettings) :
    (fillMergeStrategy e).tag_name = e.tag_name := by
  unfold fillMergeStrategy; split <;> rfl

theorem fillMergeStrategy_stash_name (e : TagSettings) :
    (fillMergeStrategy e).stash_name = e.stash_name := by
  unfold fillMergeStrategy; split <;> rfl

theorem effectiveAfterOverride_tag_name (cfg : TagConfiguration) (t : String) :
    (effectiveAfterOverride cfg t).tag_name =
      (if pyStrip t = "" then cfg.global_settings.tag_name else pyStrip t) := by
  unfold effectiveAfterOverride
  cases hov : (if pyStrip t = "" then none
      else dget cfg.overrides (pyLower (pyStrip t))) with
  | none => simp [hov]
  | some ov => simp [hov, apply_override_eq]

theorem runPlain_cached (L : TagConfiguration) (loads : List TagConfiguration) :
    runPlain (some L) loads = (loads.map (fun _ => L), some L) := by
  induction loads with
  | nil => rfl
  | cons l ls ih => simp [runPlain, get_tag_configuration, ih]

theorem foldl_global (rows : List RawRow) (g : TagSettings)
    (d : List (String × TagSettingsOverride)) :
    (rows.foldl stepRow { global_settings := g, overrides := d }).global_settings =
      (defaultFragments rows).foldl apply_override g := by
  induction rows generalizing g d with
  | nil => rfl
  | cons r rs ih =>
    rcases hp : parse_row r with ⟨tk, ovo⟩
    cases ovo with
    | none =>
      cases tk <;>
        simp [List.foldl_cons, stepRow, hp, defaultFragments, List.filterMap_cons, ih]
    | some ov =>
      cases tk <;>
        simp [List.foldl_cons, stepRow, hp, defaultFragments, List.filterMap_cons, ih]

theorem foldl_overrides (rows : List RawRow) (g : TagSettings)
    (d : List (String × TagSettingsOverride)) (k : String) :
    dget ((rows.foldl stepRow { global_settings := g, overrides := d }).overrides) k =
      oor (lastEntry (rowFragments rows) k) (dget d k) := by
  induction rows generalizing g d with
  | nil => simp [rowFragments, lastEntry, oor]
  | cons r rs ih =>
    rcases hp : parse_row r with ⟨tk, ovo⟩
    cases ovo with
    | none =>
      cases tk <;>
        simp [List.foldl_cons, stepRow, hp, rowFragments, List.filterMap_cons, ih]
    | some ov =>
      cases tk with
      | none =>
        simp [List.foldl_cons, stepRow, hp, rowFragments, List.filterMap_cons, ih]
      | some k' =>
        have hstep : stepRow { global_settings := g, overrides := d } r =
            { global_settings := g, overrides := dset d k' ov } := by
          simp [stepRow, hp]
        have hfrag : rowFragments (r :: rs) = (k', ov) :: rowFragments rs := by
          simp [rowFragments, List.filterMap_cons, hp]
        rw [List.foldl_cons, hstep, ih, dget_dset, hfrag]
        simp only [lastEntry]
        cases lastEntry (rowFragments rs) k with
        | some w => simp [oor]
        | none => by_cases hk : k' = k <;> simp [oor, hk]

theorem dset_all_values {α : Type} (P : α → Prop) (d : List (String × α))
    (hall : ∀ p ∈ d, P p.2) (k : String) (v : α) (hv : P v) :
    ∀ p ∈ dset d k v, P p.2 := by
  induction d with
  | nil => simpa [dset]
  | cons hd tl ih =>
    obtain ⟨a, b⟩ := hd
    intro p hp
    simp only [dset] at hp
    by_cases hak : a = k
    · rw [if_pos hak] at hp
      rcases List.mem_cons.mp hp with h | h
      · subst h; exact hv
      · exact hall p (List.mem_cons_of_mem _ h)
    · rw [if_neg hak] at hp
      rcases List.mem_cons.mp hp with h | h
      · subst h; exact hall (a, b) (List.mem_cons_self _ _)
      · exact ih (fun q hq => hall q (List.mem_cons_of_mem _ hq)) p h

theorem normalizeRow_blank (raw : RawRow)
    (h : ∀ kv ∈ raw, cellBlank kv.2 = true) :
    ∀ kv ∈ normalizeRow raw, cellBlank kv.2 = true := by
  suffices hgen : ∀ (acc : RawRow), (∀ kv ∈ acc, cellBlank kv.2 = true) →
      ∀ kv ∈ raw.foldl
        (fun acc kv => dset acc (normalize_key kv.1) (kv.2.map pyStrip)) acc,
      cellBlank kv.2 = true by
    exact hgen [] (by simp)
  induction raw with
  | nil => intro acc hacc; simpa using hacc
  | cons hd tl ih =>
    intro acc hacc
    simp only [List.foldl_cons]
    refine ih (fun kv hkv => h kv (List.mem_cons_of_mem _ hkv)) _ ?_
    refine dset_all_values (fun c => cellBlank c = true) acc hacc _ _ ?_
    have hhd : cellBlank hd.2 = true := h hd (List.mem_cons_self _ _)
    cases hc : hd.2 with
    | none => simp [cellBlank]
    | some s =>
      rw [hc] at hhd
      simp only [cellBlank, beq_iff_eq] at hhd
      simp only [Option.map_some]
      simp [cellBlank, hhd]
      decide

/-! ## Claim theorems -/

/-- C1: the claim says that any exception while reading/parsing the config
file makes `load()` return the built-in defaults with no overrides.  The code
violates this: the `except Exception:` handler only logs ("using defaults"),
so rows already processed before a mid-file read failure are kept.  With a
default row and a per-tag row read before the failure, the result has the
default row folded in (`markers_enabled = false`, unlike the built-in default
`true`) and a non-empty overrides mapping. -/
theorem c1_partial_state_survives_failure :
    (loadModel c1Rows true "_AI" "tag_settings.csv").global_settings.markers_enabled = false ∧
    (loadModel c1Rows true "_AI" "tag_settings.csv").overrides ≠ [] ∧
    base_settings.markers_enabled = true ∧
    (loadModel c1Rows true "_AI" "tag_settings.csv").global_settings ≠ base_settings := by
  decide

/-- C2 counterexample: on the default snapshot, `resolve("")` returns a
`TagSettings` whose `tag_name` field is `"__global__"` (non-empty) but whose
`stash_name` is the empty string — so "stash_name is non-empty whenever
tag_name is non-empty" fails as stated. -/
theorem c2_counterexample :
    (resolve cfg0 "").1.tag_name ≠ "" ∧
    optNonEmpty ((resolve cfg0 "").1.stash_name) = false := by
  decide

/-- C2 amended: for every snapshot and input `t`, `resolve(t)` returns a
`TagSettings` whose `merge_strategy` is non-empty, and whose `stash_name` is
non-empty whenever the TRIMMED INPUT `t` is non-empty. -/
theorem c2_resolve_nonempty (cfg : TagConfiguration) (t : String) :
    (resolve cfg t).1.merge_strategy ≠ "" ∧
    (pyStrip t ≠ "" → optNonEmpty ((resolve cfg t).1.stash_name) = true) := by
  constructor
  · show (fillMergeStrategy _).merge_strategy ≠ ""
    unfold fillMergeStrategy
    split
    · simp
    · assumption
  · intro ht
    show optNonEmpty ((fillMergeStrategy (fillStashName cfg (pyStrip t) _)).stash_name) = true
    rw [fillMergeStrategy_stash_name]
    unfold fillStashName
    split
    · simp [optNonEmpty, string_append_ne_empty _ _ ht]
    · rename_i hfalsy
      cases he : (effectiveAfterOverride cfg t).stash_name with
      | none => rw [he] at hfalsy; simp [pyFalsyOptStr] at hfalsy
      | some s =>
        rw [he] at hfalsy
        simp only [pyFalsyOptStr, beq_iff_eq] at hfalsy
        simp [optNonEmpty, hfalsy]

/-- C2 witness: the amended theorem applied at the default snapshot and input
`"Blonde"`. -/
theorem c2_witness :
    pyStrip "Blonde" ≠ "" ∧ optNonEmpty ((resolve cfg0 "Blonde").1.stash_name) = true :=
  ⟨by decide, (c2_resolve_nonempty cfg0 "Blonde").2 (by decide)⟩

/-- C3 counterexample: on the default snapshot with input `""`, the effective
name is `"__global__"` (non-empty), `stash_name` is falsy after the override
step, yet it is set to the empty string — not to the effective name plus the
suffix (`"__global___AI"`), so "left empty only when the effective name itself
is empty" fails as stated. -/
theorem c3_counterexample :
    (resolve cfg0 "").1.tag_name = "__global__" ∧
    (resolve cfg0 "").1.stash_name = some "" ∧
    (resolve cfg0 "").1.stash_name ≠ some ("__global__" ++ "_AI") := by
  decide

/-- C3 amended: when the trimmed input is empty the effective name is the
baseline's own `tag_name`; and whenever `stash_name` is still falsy after the
override step it is set to the TRIMMED INPUT concatenated with the tag suffix,
being set to the empty string exactly when the trimmed input is empty (even if
the effective name is non-empty). -/
theorem c3_stash_derivation (cfg : TagConfiguration) (t : String) :
    (pyStrip t = "" → (resolve cfg t).1.tag_name = cfg.global_settings.tag_name) ∧
    (pyFalsyOptStr (effectiveAfterOverride cfg t).stash_name = true →
      (resolve cfg t).1.stash_name =
        some (if pyStrip t = "" then "" else pyStrip t ++ cfg.tag_suffix)) := by
  constructor
  · intro ht
    show (fillMergeStrategy (fillStashName cfg (pyStrip t) _)).tag_name = _
    rw [fillMergeStrategy_tag_name, fillStashName_tag_name,
      effectiveAfterOverride_tag_name, if_pos ht]
  · intro hfalsy
    show (fillMergeStrategy (fillStashName cfg (pyStrip t) _)).stash_name = _
    rw [fillMergeStrategy_stash_name]
    unfold fillStashName
    rw [if_pos hfalsy]
    by_cases hn : pyStrip t = "" <;> simp [hn]

/-- C3 witness: the amended theorem applied at the default snapshot and input
`""`. -/
theorem c3_witness :
    (pyStrip "" = "" ∧ (resolve cfg0 "").1.tag_name = cfg0.global_settings.tag_name) ∧
    (pyFalsyOptStr (effectiveAfterOverride cfg0 "").stash_name = true ∧
      (resolve cfg0 "").1.stash_name = some "") := by
  have h := c3_stash_derivation cfg0 ""
  refine ⟨⟨by decide, h.1 (by decide)⟩, ⟨by decide, ?_⟩⟩
  exact (h.2 (by decide)).trans (by decide)

/-- C4: `_apply_override` replaces each scalar field of the base exactly when
the override's value for that field is non-null (so `false` and `0` replace),
leaves it unchanged when the override's value is null, except that an override
`stash_name` equal to `""` clears the base's `stash_name` to null; `tag_name`
is never touched. -/
theorem c4_apply_override_field_rule (base : TagSettings) (ov : TagSettingsOverride) :
    (apply_override base ov).stash_name =
      (match ov.stash_name with
       | none => base.stash_name
       | some s => if s = "" then none else some s) ∧
    (apply_override base ov).markers_enabled =
      (match ov.markers_enabled with
       | none => base.markers_enabled
       | some v => v) ∧
    (apply_override base ov).scene_tag_enabled =
      (match ov.scene_tag_enabled with
       | none => base.scene_tag_enabled
       | some v => v) ∧
    (apply_override base ov).image_enabled =
      (match ov.image_enabled with
       | none => base.image_enabled
       | some v => v) ∧
    (apply_override base ov).required_scene_tag_duration =
      (match ov.required_scene_tag_duration with
       | none => base.required_scene_tag_duration
       | some v => some v) ∧
    (apply_override base ov).min_marker_duration =
      (match ov.min_marker_duration with
       | none => base.min_marker_duration
       | some v => some v) ∧
    (apply_override base ov).max_gap =
      (match ov.max_gap with
       | none => base.max_gap
       | some v => some v) ∧
    (apply_override base ov).merge_strategy =
      (match ov.merge_strategy with
       | none => base.merge_strategy
       | some v => v) ∧
    (apply_override base ov).tag_name = base.tag_name := by
  rw [apply_override_eq]
  exact ⟨rfl, rfl, rfl, rfl, rfl, rfl, rfl, rfl, rfl⟩

/-- C5: the five positions of `merge_params` merge independently — each
position of the result equals the override's value there when it is non-null
and the base's prior value there otherwise. -/
theorem c5_merge_params_positional (base : TagSettings) (ov : TagSettingsOverride)
    (i : Fin 5) :
    ((apply_override base ov).merge_params).get i =
      (match (ov.merge_params).get i with
       | none => (base.merge_params).get i
       | some v => some v) := by
  rw [apply_override_eq]
  rcases hb : base.merge_params with ⟨b1, b2, b3, b4, b5⟩
  rcases ho : ov.merge_params with ⟨o1, o2, o3, o4, o5⟩
  rcases i with ⟨iv, hi⟩
  interval_cases iv <;> rfl

/-- C6: for a non-blank row, the parser targets the global baseline (tag key
`none`) exactly when the tag cell, after trimming, is empty or case-sensitively
equal to `"*"`, `"default"` or `"__default__"`; any other tag cell yields the
cell text lower-cased as the key. -/
theorem c6_tag_key_decision (raw : RawRow)
    (h : rowIsBlank (normalizeRow raw) = false) :
    (parse_row raw).1 =
      (if tagCellValue (normalizeRow raw) = "" ∨ tagCellValue (normalizeRow raw) = "*" ∨
          tagCellValue (normalizeRow raw) = "default" ∨
          tagCellValue (normalizeRow raw) = "__default__"
       then none
       else some (pyLower (tagCellValue (normalizeRow raw)))) := by
  have hiff : ∀ s : String, isDefaultMarker s = true ↔
      (s = "" ∨ s = "*" ∨ s = "default" ∨ s = "__default__") := by
    intro s
    simp [isDefaultMarker, or_assoc]
  unfold parse_row
  simp only [h, Bool.false_eq_true, if_false]
  by_cases hm : isDefaultMarker (tagCellValue (normalizeRow raw)) = true
  · rw [if_pos hm, if_pos ((hiff _).mp hm)]
  · rw [if_neg hm, if_neg (fun hc => hm ((hiff _).mpr hc))]

/-- C6 witness: the theorem applied to a row whose tag cell is `" Default "`:
the row is non-blank and yields the specific-tag key `"default"`, not the
global baseline. -/
theorem c6_witness :
    rowIsBlank (normalizeRow c6Row) = false ∧ (parse_row c6Row).1 = some "default" := by
  refine ⟨by decide, ?_⟩
  exact (c6_tag_key_decision c6Row (by decide)).trans (by decide)

/-- C7: rows targeting the same per-tag key overwrite wholesale — the stored
override for a key is the parse of the last row emitting that key, with no
field-level merging — while rows targeting the global baseline fold
cumulatively, in order, onto the built-in defaults. -/
theorem c7_last_row_wins_defaults_fold (rows : List RawRow) (k : String) :
    dget (processRows rows).overrides k = lastEntry (rowFragments rows) k ∧
    (processRows rows).global_settings =
      (defaultFragments rows).foldl apply_override base_settings := by
  constructor
  · rw [processRows, foldl_overrides]
    cases lastEntry (rowFragments rows) k <;> rfl
  · exact foldl_global rows base_settings []

/-- C8: a row whose cells are all absent, empty or whitespace produces no
fragment (`(none, none)`) and leaves the loader's accumulating state — global
baseline and overrides mapping — unchanged. -/
theorem c8_blank_row_skipped (raw : RawRow)
    (h : ∀ kv ∈ raw, cellBlank kv.2 = true) :
    parse_row raw = (none, none) ∧ ∀ st : LoadState, stepRow st raw = st := by
  have hblank : rowIsBlank (normalizeRow raw) = true := by
    rw [rowIsBlank, List.all_eq_true]
    intro kv hkv
    exact normalizeRow_blank raw h kv hkv
  have hpr : parse_row raw = (none, none) := by
    unfold parse_row
    rw [if_pos hblank]
  exact ⟨hpr, fun st => by simp [stepRow, hpr]⟩

/-- C8 witness: the theorem applied to a concrete all-blank row, with the
loader state seeded from the built-in defaults. -/
theorem c8_witness :
    (∀ kv ∈ c8Row, cellBlank kv.2 = true) ∧
    parse_row c8Row = (none, none) ∧
    stepRow { global_settings := base_settings, overrides := [] } c8Row =
      { global_settings := base_settings, overrides := [] } := by
  have h := c8_blank_row_skipped c8Row (by decide)
  exact ⟨by decide, h.1, h.2 _⟩

/-- C9: `resolve` never mutates the snapshot (the clone produced by
`dataclasses.replace` absorbs every mutation), and calling it again on the
snapshot as left by the first call yields a field-for-field identical result. -/
theorem c9_resolve_pure (cfg : TagConfiguration) (t : String) :
    (resolve cfg t).2 = cfg ∧
    (resolve ((resolve cfg t).2) t).1 = (resolve cfg t).1 ∧
    ((resolve cfg t).2).global_settings = cfg.global_settings ∧
    ((resolve cfg t).2).overrides = cfg.overrides ∧
    ((resolve cfg t).2).tag_suffix = cfg.tag_suffix ∧
    ((resolve cfg t).2).source_path = cfg.source_path :=
  ⟨rfl, rfl, rfl, rfl, rfl, rfl⟩

/-- C10: a `get_tag_configuration(reload=True)` call returns the freshly
loaded snapshot and installs it as the cache, and every subsequent plain
`get_tag_configuration()` call returns that same snapshot (whatever `load()`
would now produce), leaving the cache untouched until the next reload. -/
theorem c10_reload_semantics (cache : Option TagConfiguration)
    (L : TagConfiguration) (loads : List TagConfiguration) :
    (get_tag_configuration L true cache).1 = L ∧
    (get_tag_configuration L true cache).2 = some L ∧
    (runPlain ((get_tag_configuration L true cache).2) loads).1 =
      loads.map (fun _ => L) ∧
    (runPlain ((get_tag_configuration L true cache).2) loads).2 = some L := by
  refine ⟨rfl, rfl, ?_, ?_⟩ <;>
    simp [get_tag_configuration, runPlain_cached]

end TagConfig
